import Mathlib

/-!
Shallow embedding of the `purefunctor/pixels` client library
(`src/pixels/pixel.py` and `src/pixels/client.py`) and proofs about the
claims of its specification.

Conventions of the embedding:
* Python `int` values are modelled as `Int` (they are unbounded and signed);
  byte values read from a canvas stream are modelled as `Nat`.
* Python functions that may raise are modelled as `Option`-returning
  functions (`none` = an exception escapes the modelled function).
* Python `dict`s are modelled as association lists in insertion order.
-/

/-! ## Color model — `src/pixels/pixel.py` -/

/-- The value of a single hexadecimal digit as accepted by Python's
`int(_, base=16)`: `0-9`, `a-f`, `A-F` (written via ASCII codes so bounds
are immediate). -/
def hexDigitVal (c : Char) : Option Nat :=
  if 48 ≤ c.toNat ∧ c.toNat ≤ 57 then some (c.toNat - 48)
  else if 97 ≤ c.toNat ∧ c.toNat ≤ 102 then some (c.toNat - 87)
  else if 65 ≤ c.toNat ∧ c.toNat ≤ 70 then some (c.toNat - 55)
  else none

/-- `int(s, base=16)` on a plain string of hexadecimal digits: fails on an
empty string or on any non-hex-digit character.  (Python's `int` also accepts
surrounding whitespace, a sign, underscores and a `0x` prefix; no call site
in the source ever passes such a string, so those forms are not modelled.) -/
def parseHexNat (l : List Char) : Option Nat :=
  if l.isEmpty then none
  else l.foldl
    (fun acc c =>
      match acc, hexDigitVal c with
      | some a, some d => some (16 * a + d)
      | _, _ => none)
    (some 0)

/-- Argument accepted by the `RGB` attrs converter `_from_hex`
(`t.Union[str, int]`). -/
inductive HexArg where
  | str (s : String)
  | int (n : Int)

/-- `_from_hex` from `pixel.py`: a string is parsed with `int(hxt, base=16)`,
an integer is passed through unchanged (no range check of any kind). -/
def fromHexConv : HexArg → Option Int
  | .str s => (parseHexNat s.data).map fun n => (n : Int)
  | .int n => some n

/-- The `RGB` attrs class: three channels.  The converter does not bound the
channels, so the fields are unrestricted integers, exactly as in the source. -/
structure RGB where
  r : Int
  g : Int
  b : Int
deriving DecidableEq, Repr

/-- Constructing `RGB(r, g, b)`: each argument goes through the `_from_hex`
converter, which raises `ValueError` (here: `none`) on a malformed string. -/
def RGB.make (ra ga ba : HexArg) : Option RGB :=
  match fromHexConv ra, fromHexConv ga, fromHexConv ba with
  | some r, some g, some b => some ⟨r, g, b⟩
  | _, _, _ => none

/-- Python's `f"{n:x}"` for `n ≥ 0`: lowercase hexadecimal digits, most
significant first — this is exactly `Nat.toDigits 16`. -/
def natToHex (n : Nat) : List Char := Nat.toDigits 16 n

/-- Python's `f"{n:02x}"`: hexadecimal form, zero-padded on the left to a
total width of two characters (a minus sign counts toward the width). -/
def format02x (n : Int) : List Char :=
  if n < 0 then '-' :: natToHex n.natAbs
  else List.replicate (2 - (natToHex n.toNat).length) '0' ++ natToHex n.toNat

/-- `RGB.as_hex_string`: `f"{r:02x}{g:02x}{b:02x}"`. -/
def RGB.as_hex_string (c : RGB) : String :=
  ⟨format02x c.r ++ format02x c.g ++ format02x c.b⟩

/-- `RGB.from_hex_string`: `re.match("#?" + "([A-Za-z0-9]{2})" * 3, hxt)`
followed by `RGB(*match.groups())`, with `ValueError` mapped to a decode
failure.  `re.match` anchors only at the start of the string, so trailing
characters after the six matched ones are ignored; the optional `#` is
consumed greedily (backtracking cannot help: `#` is not alphanumeric). -/
def RGB.from_hex_string (s : String) : Option RGB :=
  match (if s.data.head? == some '#' then s.data.tail else s.data) with
  | c1 :: c2 :: c3 :: c4 :: c5 :: c6 :: _ =>
    if c1.isAlphanum && c2.isAlphanum && c3.isAlphanum &&
        c4.isAlphanum && c5.isAlphanum && c6.isAlphanum then
      RGB.make (.str ⟨[c1, c2]⟩) (.str ⟨[c3, c4]⟩) (.str ⟨[c5, c6]⟩)
    else none
  | _ => none

/-- Decidable helper for the two-hex-digit round trip: formatting a byte
with `f"{_:02x}"` yields two alphanumeric non-`#` characters that parse back
to the same value. -/
def hexPairCheck (m : Nat) : Bool :=
  match format02x (m : Int) with
  | [a, b] =>
    a.isAlphanum && b.isAlphanum && !(a == '#') && (parseHexNat [a, b] == some m)
  | _ => false

/-! ## Canvas model — `src/pixels/pixel.py` -/

/-- The `CanvasSize` attrs class. -/
structure CanvasSize where
  width : Nat
  height : Nat
deriving DecidableEq, Repr

/-- `chunks_of(i, n)` at `n = 3` (its only use): `zip` over three copies of
one shared iterator yields consecutive triples and silently drops an
incomplete final group. -/
def chunks_of : List Nat → List (Nat × Nat × Nat)
  | a :: b :: c :: rest => (a, b, c) :: chunks_of rest
  | _ => []

/-- `itertools.product(range(size.height), range(size.width))`: all pairs
`(y, x)`, with `y` outermost and `x` fastest. -/
def productRange (height width : Nat) : List (Nat × Nat) :=
  (List.range height).flatMap fun y => (List.range width).map fun x => (y, x)

/-- The loop body of `Canvas.from_bytes`: `_canvas[x, y] = RGB(*next(chunks))`
for each `(y, x)` coordinate in order; an exhausted chunk iterator raises
`StopIteration` (here: `none`). -/
def fillCanvas : List (Nat × Nat) → List (Nat × Nat × Nat) →
    Option (List ((Nat × Nat) × RGB))
  | [], _ => some []
  | _ :: _, [] => none
  | (y, x) :: coords, t :: chunks =>
    (fillCanvas coords chunks).map fun rest =>
      ((x, y), (⟨(t.1 : Int), (t.2.1 : Int), (t.2.2 : Int)⟩ : RGB)) :: rest

/-- The `Canvas` attrs class: a size plus the `_canvas` dict, modelled as an
association list in insertion order (all inserted keys are distinct). -/
structure Canvas where
  size : CanvasSize
  canvas : List ((Nat × Nat) × RGB)
deriving DecidableEq, Repr

/-- `Canvas.__getitem__`: dict lookup by `(x, y)`, `KeyError` = `none`. -/
def Canvas.getIndex (c : Canvas) (x y : Nat) : Option RGB :=
  (c.canvas.find? fun e => e.1 == (x, y)).map (·.2)

/-- `Canvas.from_bytes`. -/
def Canvas.from_bytes (size : CanvasSize) (stream : List Nat) : Option Canvas :=
  (fillCanvas (productRange size.height size.width) (chunks_of stream)).map
    fun entries => ⟨size, entries⟩

/-- The color stored for one 3-byte chunk (proof helper). -/
def rgbOfChunk (t : Nat × Nat × Nat) : RGB :=
  ⟨(t.1 : Int), (t.2.1 : Int), (t.2.2 : Int)⟩

/-- The canvas entry stored for coordinate pair `(y, x)` and one chunk
(proof helper): the key is flipped to `(x, y)`. -/
def pairEntry (p : Nat × Nat) (t : Nat × Nat × Nat) : (Nat × Nat) × RGB :=
  ((p.2, p.1), rgbOfChunk t)

/-! ## Rate-limit state machine — `src/pixels/client.py` -/

/-- The four fixed endpoints of the `Endpoint` enum. -/
inductive Endpoint where
  | GET_PIXELS
  | GET_PIXEL
  | GET_SIZE
  | SET_PIXEL
deriving DecidableEq, Repr

/-- The `LimitsStatus` enum. -/
inductive LimitsStatus where
  | ALL_GREEN
  | LOW_RESOURCE
  | ON_COOLDOWN
deriving DecidableEq, Repr

/-- A nonempty string of decimal digits, as a number. -/
def parseDecNat (l : List Char) : Option Nat :=
  if l.isEmpty then none
  else l.foldl
    (fun acc c =>
      match acc with
      | some a => if c.isDigit then some (10 * a + (c.toNat - 48)) else none
      | none => none)
    (some 0)

/-- Python's `int(s)` on a decimal string: optional sign followed by digits.
(Python's `int` also tolerates surrounding whitespace and underscores between
digits; such header values never occur in the claims considered here.) -/
def pyInt (s : String) : Option Int :=
  match s.data with
  | '-' :: rest => (parseDecNat rest).map fun n => -(n : Int)
  | '+' :: rest => (parseDecNat rest).map fun n => (n : Int)
  | l => (parseDecNat l).map fun n => (n : Int)

/-- The `_Active` attrs class: quota view of an endpoint's rate limit. -/
structure Active where
  remaining : Int
  limit : Int
  reset : Int
deriving DecidableEq, Repr

/-- `_Active.is_low`: `self.remaining == 1`. -/
def Active.is_low (a : Active) : Bool := a.remaining == 1

/-- The `_Inactive` attrs class: cooldown view of an endpoint's rate limit. -/
structure Inactive where
  cooldown : Int
deriving DecidableEq, Repr

/-- The `t.Union[_Active, _Inactive]` stored in `Limits.current`. -/
inductive CurrentLimits where
  | active (a : Active)
  | inactive (i : Inactive)
deriving DecidableEq, Repr

/-- The `Limits` attrs class. -/
structure Limits where
  endpoint : Endpoint
  current : CurrentLimits
deriving DecidableEq, Repr

/-- Response headers: a string-keyed, string-valued mapping. -/
abbrev Headers := List (String × String)

/-- Header lookup (`m[k]` / `k in m`). -/
def headersGet (m : Headers) (k : String) : Option String :=
  (m.find? fun e => e.1 == k).map (·.2)

/-- `Limits.from_json`: prefer the `Cooldown-Reset` signal; otherwise require
all three quota markers.  A missing marker raises `ValueError`, and so does
`int(...)` on an unparsable header value inside the `_Active` / `_Inactive`
converters; both are modelled as `none`. -/
def Limits.from_json (endpoint : Endpoint) (m : Headers) : Option Limits :=
  match headersGet m "Cooldown-Reset" with
  | some v => (pyInt v).map fun c => ⟨endpoint, .inactive ⟨c⟩⟩
  | none =>
    match headersGet m "Requests-Remaining", headersGet m "Requests-Limit",
        headersGet m "Requests-Reset" with
    | some rv, some lv, some tv =>
      match pyInt rv, pyInt lv, pyInt tv with
      | some r, some l, some t => some ⟨endpoint, .active ⟨r, l, t⟩⟩
      | _, _, _ => none
    | _, _, _ => none

/-- `Limits.status`. -/
def Limits.status : Limits → LimitsStatus × Int
  | ⟨_, .active a⟩ =>
    if a.is_low then (.LOW_RESOURCE, a.reset) else (.ALL_GREEN, 0)
  | ⟨_, .inactive i⟩ => (.ON_COOLDOWN, i.cooldown)

/-- The `Limiter` attrs class: the per-endpoint dict of `Limits`. -/
structure Limiter where
  limits : List (Endpoint × Limits)
deriving DecidableEq, Repr

/-- Dict assignment `d[k] = v`: overwrite in place or append. -/
def dictSet (d : List (Endpoint × Limits)) (k : Endpoint) (v : Limits) :
    List (Endpoint × Limits) :=
  if d.any fun e => e.1 == k then
    d.map fun e => if e.1 == k then (k, v) else e
  else d ++ [(k, v)]

/-- `Limiter.notify`: parse the headers, store the fresh state, return the
status; a `ValueError` anywhere in parsing is caught and turned into
`(ALL_GREEN, 0)` with the stored state untouched.  (The source calls
`Limits.from_json` twice; on a plain mapping the second call returns the
same value, so the model calls it once.) -/
def Limiter.notify (lim : Limiter) (endpoint : Endpoint) (headers : Headers) :
    (LimitsStatus × Int) × Limiter :=
  match Limits.from_json endpoint headers with
  | some limits => (limits.status, ⟨dictSet lim.limits endpoint limits⟩)
  | none => ((.ALL_GREEN, 0), lim)

/-! ## Request pipeline — `Client._request` in `src/pixels/client.py` -/

/-- One HTTP response as the pipeline observes it: headers, status code and
body text; the body decoder is an abstract function of the response. -/
structure Resp where
  headers : Headers
  status : Nat
  text : String
deriving DecidableEq, Repr

/-- How one call to `Client._request` ends. -/
inductive RequestResult (T : Type) where
  | ok (value : T)
  | fatalGatewayError
  | gatewayError (status : Nat) (text : String)
  | noResponse
deriving DecidableEq, Repr

/-- Everything observable about one call to `Client._request`: the result,
the list of `asyncio.sleep` durations performed, and the final limiter. -/
structure RequestOutcome (T : Type) where
  result : RequestResult T
  waits : List Int
  limiter : Limiter
deriving DecidableEq, Repr

/-- `Client._request`, run against a script of simulated responses (the
next `session.request` yields the next script entry).  The body of the
source's `while True:` loop unconditionally leaves the loop — every branch
ends in `raise` or `return`, and the throttle branch only sleeps — so the
loop body runs exactly once and at most one response is ever consumed. -/
def clientRequest {T : Type} (decode : Resp → T) (lim : Limiter)
    (endpoint : Endpoint) (script : List Resp) : RequestOutcome T :=
  match script with
  | [] => ⟨.noResponse, [], lim⟩
  | response :: _ =>
    let notified := lim.notify endpoint response.headers
    let status := notified.1.1
    let cooldown := notified.1.2
    let lim1 := notified.2
    let waits :=
      if status = LimitsStatus.LOW_RESOURCE ∨ status = LimitsStatus.ON_COOLDOWN
      then [cooldown] else []
    if 500 ≤ response.status then ⟨.fatalGatewayError, waits, lim1⟩
    else if 400 ≤ response.status ∧ response.status < 500 then
      ⟨.gatewayError response.status response.text, waits, lim1⟩
    else ⟨.ok (decode response), waits, lim1⟩

/-! ## Helper lemmas: the hex codec -/

set_option maxHeartbeats 1000000 in
set_option maxRecDepth 10000 in
lemma hexPairCheck_true : ∀ m : Fin 256, hexPairCheck m.val = true := by decide

lemma format02x_pair {m : Nat} (hm : m < 256) :
    ∃ a b, format02x (m : Int) = [a, b] ∧ a.isAlphanum = true ∧
      b.isAlphanum = true ∧ (a == '#') = false ∧ parseHexNat [a, b] = some m := by
  have h := hexPairCheck_true ⟨m, hm⟩
  unfold hexPairCheck at h
  match hl : format02x (m : Int) with
  | [] => rw [hl] at h; simp at h
  | [a] => rw [hl] at h; simp at h
  | [a, b] =>
    rw [hl] at h
    simp only [Bool.and_eq_true, beq_iff_eq, Bool.not_eq_true'] at h
    exact ⟨a, b, rfl, h.1.1.1, h.1.1.2, h.1.2, by rw [h.2]⟩
  | a :: b :: c :: rest => rw [hl] at h; simp at h

lemma hexDigitVal_lt {c : Char} {n : Nat} (h : hexDigitVal c = some n) : n < 16 := by
  unfold hexDigitVal at h
  split at h
  · injection h with h'; omega
  · split at h
    · injection h with h'; omega
    · split at h
      · injection h with h'; omega
      · exact absurd h (by simp)

lemma parseHexNat_pair_le {a b : Char} {n : Nat} (h : parseHexNat [a, b] = some n) :
    n ≤ 255 := by
  cases ha : hexDigitVal a with
  | none => simp [parseHexNat, ha] at h
  | some x =>
    cases hb : hexDigitVal b with
    | none => simp [parseHexNat, ha, hb] at h
    | some y =>
      have hx := hexDigitVal_lt ha
      have hy := hexDigitVal_lt hb
      simp [parseHexNat, ha, hb] at h
      omega

/-! ## Helper lemmas: the canvas decoder -/

lemma chunks_of_length : ∀ l : List Nat, (chunks_of l).length = l.length / 3
  | [] => by simp [chunks_of]
  | [a] => by simp [chunks_of]
  | [a, b] => by simp [chunks_of]
  | a :: b :: c :: rest => by
    simp [chunks_of, chunks_of_length rest]
    omega

lemma chunks_of_getD : ∀ (l : List Nat) (k : Nat), k < l.length / 3 →
    (chunks_of l).getD k (0, 0, 0) =
      (l.getD (3 * k) 0, l.getD (3 * k + 1) 0, l.getD (3 * k + 2) 0)
  | [], k, hk => absurd hk (by simp)
  | [a], k, hk => absurd hk (by simp)
  | [a, b], k, hk => absurd hk (by simp)
  | a :: b :: c :: rest, 0, _ => by simp [chunks_of]
  | a :: b :: c :: rest, k + 1, hk => by
    have hk' : k < rest.length / 3 := by simp at hk; omega
    have ih := chunks_of_getD rest k hk'
    have h1 : 3 * (k + 1) = 3 * k + 1 + 1 + 1 := by ring
    have h2 : 3 * (k + 1) + 1 = 3 * k + 1 + 1 + 1 + 1 := by ring
    have h3 : 3 * (k + 1) + 2 = 3 * k + 2 + 1 + 1 + 1 := by ring
    rw [h3, h2, h1]
    simpa [chunks_of, List.getD_cons_succ] using ih

lemma fillCanvas_eq : ∀ (coords : List (Nat × Nat)) (ts : List (Nat × Nat × Nat)),
    coords.length ≤ ts.length →
    fillCanvas coords ts = some (List.zipWith pairEntry coords ts)
  | [], ts, _ => by simp [fillCanvas]
  | (y, x) :: coords, [], h => by simp at h
  | (y, x) :: coords, t :: ts, h => by
    have ih := fillCanvas_eq coords ts (by simp at h; omega)
    simp [fillCanvas, ih, pairEntry, rgbOfChunk]

lemma fillCanvas_none : ∀ (coords : List (Nat × Nat)) (ts : List (Nat × Nat × Nat)),
    ts.length < coords.length → fillCanvas coords ts = none
  | [], ts, h => by simp at h
  | (y, x) :: coords, [], _ => by simp [fillCanvas]
  | (y, x) :: coords, t :: ts, h => by
    have ih := fillCanvas_none coords ts (by simp at h; omega)
    simp [fillCanvas, ih]

lemma prodAux_length : ∀ (n s w : Nat),
    ((List.range' s n).flatMap fun yy => (List.range w).map fun xx => (yy, xx)).length
      = n * w
  | 0, s, w => by simp
  | n + 1, s, w => by
    rw [List.range'_succ, List.flatMap_cons, List.length_append, prodAux_length n (s + 1) w]
    simp
    ring

lemma productRange_length (height width : Nat) :
    (productRange height width).length = height * width := by
  rw [productRange, List.range_eq_range', prodAux_length]

lemma find_row_hit : ∀ (m t s x : Nat) (ts : List (Nat × Nat × Nat)),
    t ≤ x → x < t + m → x - t < ts.length →
    List.find? (fun e => e.1 == (x, s))
      (List.zipWith pairEntry ((List.range' t m).map fun xx => (s, xx)) ts) =
      some ((x, s), rgbOfChunk (ts.getD (x - t) (0, 0, 0)))
  | 0, t, s, x, ts, h1, h2, h3 => absurd h2 (by omega)
  | m + 1, t, s, x, [], h1, h2, h3 => absurd h3 (by simp)
  | m + 1, t, s, x, u :: ts, h1, h2, h3 => by
    rw [List.range'_succ, List.map_cons, List.zipWith_cons_cons]
    by_cases hx : x = t
    · subst hx
      rw [List.find?_cons_of_pos _ (by simp [pairEntry])]
      simp [pairEntry]
    · rw [List.find?_cons_of_neg _ (by simp [pairEntry]; omega)]
      have ih := find_row_hit m (t + 1) s x ts (by omega) (by omega)
        (by simp at h3; omega)
      rw [ih]
      have hd : x - t = (x - (t + 1)) + 1 := by omega
      rw [hd, List.getD_cons_succ]

lemma find_row_miss : ∀ (m t s x y : Nat) (ts : List (Nat × Nat × Nat)), y ≠ s →
    List.find? (fun e => e.1 == (x, y))
      (List.zipWith pairEntry ((List.range' t m).map fun xx => (s, xx)) ts) = none
  | 0, t, s, x, y, ts, hy => by simp
  | m + 1, t, s, x, y, [], hy => by simp
  | m + 1, t, s, x, y, u :: ts, hy => by
    rw [List.range'_succ, List.map_cons, List.zipWith_cons_cons]
    rw [List.find?_cons_of_neg _ (by simp [pairEntry]; omega)]
    exact find_row_miss m (t + 1) s x y ts hy

lemma find_row_hit0 (w s x : Nat) (ts : List (Nat × Nat × Nat))
    (hx : x < w) (hts : x < ts.length) :
    List.find? (fun e => e.1 == (x, s))
      (List.zipWith pairEntry ((List.range w).map fun xx => (s, xx)) ts) =
      some ((x, s), rgbOfChunk (ts.getD x (0, 0, 0))) := by
  rw [List.range_eq_range']
  simpa using find_row_hit w 0 s x ts (by omega) (by omega) (by omega)

lemma find_row_miss0 (w s x y : Nat) (ts : List (Nat × Nat × Nat)) (hy : y ≠ s) :
    List.find? (fun e => e.1 == (x, y))
      (List.zipWith pairEntry ((List.range w).map fun xx => (s, xx)) ts) = none := by
  rw [List.range_eq_range']
  exact find_row_miss w 0 s x y ts hy

lemma find_grid : ∀ (n s w x y : Nat) (ts : List (Nat × Nat × Nat)),
    x < w → s ≤ y → y < s + n → n * w ≤ ts.length →
    List.find? (fun e => e.1 == (x, y))
      (List.zipWith pairEntry
        ((List.range' s n).flatMap fun yy => (List.range w).map fun xx => (yy, xx)) ts)
      = some ((x, y), rgbOfChunk (ts.getD ((y - s) * w + x) (0, 0, 0)))
  | 0, s, w, x, y, ts, hx, hsy, hyn, hts => absurd hyn (by omega)
  | n + 1, s, w, x, y, ts, hx, hsy, hyn, hts => by
    have hwle : w ≤ ts.length := by
      have : w ≤ (n + 1) * w := Nat.le_mul_of_pos_left w (Nat.succ_pos n)
      omega
    have hrowlen : ((List.range w).map fun xx => (s, xx)).length = (ts.take w).length := by
      simp [List.length_take]
      omega
    have hsplit :
        List.zipWith pairEntry
          ((List.range' s (n + 1)).flatMap fun yy => (List.range w).map fun xx => (yy, xx)) ts
          = List.zipWith pairEntry ((List.range w).map fun xx => (s, xx)) (ts.take w) ++
            List.zipWith pairEntry
              ((List.range' (s + 1) n).flatMap fun yy => (List.range w).map fun xx => (yy, xx))
              (ts.drop w) := by
      rw [List.range'_succ, List.flatMap_cons]
      conv_lhs => rw [show ts = ts.take w ++ ts.drop w from (List.take_append_drop w ts).symm]
      exact List.zipWith_append _ _ _ _ _ hrowlen
    rw [hsplit, List.find?_append]
    by_cases hys : y = s
    · subst hys
      rw [find_row_hit0 w y x (ts.take w) hx
        (by rw [List.length_take]; exact lt_min hx (lt_of_lt_of_le hx hwle))]
      have hgd : (ts.take w).getD x (0, 0, 0) = ts.getD x (0, 0, 0) := by
        rw [List.getD_eq_getElem?_getD, List.getD_eq_getElem?_getD,
          List.getElem?_take_of_lt (by omega)]
      have hidx : (y - y) * w + x = x := by
        rw [Nat.sub_self]
        omega
      rw [hidx, hgd]
      rfl
    · rw [find_row_miss0 w s x y (ts.take w) hys]
      have ih := find_grid n (s + 1) w x y (ts.drop w) hx (by omega) (by omega)
        (by simp only [List.length_drop]
            rw [show (n + 1) * w = n * w + w from by ring] at hts
            omega)
      obtain ⟨d, hd1, hd2⟩ : ∃ d, y - s = d + 1 ∧ y - (s + 1) = d :=
        ⟨y - s - 1, by omega, by omega⟩
      rw [hd2] at ih
      have hgd : (ts.drop w).getD (d * w + x) (0, 0, 0)
          = ts.getD (w + (d * w + x)) (0, 0, 0) := by
        rw [List.getD_eq_getElem?_getD, List.getD_eq_getElem?_getD, List.getElem?_drop]
      rw [hgd] at ih
      rw [hd1, show (d + 1) * w + x = w + (d * w + x) from by ring]
      simp [Option.or, ih]

/-! ## The claims -/

/-- Claim C1.  The claim states that a throttled response (ON_COOLDOWN /
LOW_RESOURCE) makes the pipeline wait and then re-send the same request, so
that with a first response signalling ON_COOLDOWN and a second signalling
ALL_GREEN the operation returns the decoded payload of the second response.
The code does not do this: the `while True:` body never reaches a second
iteration (every branch after the optional sleep returns or raises), so the
pipeline sleeps once and then decodes and returns the *first* response.
This theorem evaluates the embedded pipeline at exactly the claimed
scenario: one wait happens, but the result is the first payload and the
second scripted response is never consumed. -/
theorem c1_no_resend_returns_first_response :
    (clientRequest (fun q => q.text) ⟨[]⟩ Endpoint.GET_PIXEL
      [⟨[("Cooldown-Reset", "5")], 200, "first"⟩,
       ⟨[("Requests-Remaining", "9"), ("Requests-Limit", "10"),
         ("Requests-Reset", "3")], 200, "second"⟩]).result
        = RequestResult.ok "first" ∧
    (clientRequest (fun q => q.text) ⟨[]⟩ Endpoint.GET_PIXEL
      [⟨[("Cooldown-Reset", "5")], 200, "first"⟩,
       ⟨[("Requests-Remaining", "9"), ("Requests-Limit", "10"),
         ("Requests-Reset", "3")], 200, "second"⟩]).waits = [5] ∧
    RequestResult.ok "first" ≠ RequestResult.ok "second" := by decide

/-- Claim C2, counterexample.  The claim predicts that quota metadata with
`remaining = 0` is classified LOW_RESOURCE with wait `reset` (= 7 here); the
code (`_Active.is_low` is `remaining == 1`) classifies it ALL_GREEN with
wait 0. -/
theorem c2_remaining_zero_not_low_resource :
    (Limiter.notify ⟨[]⟩ Endpoint.GET_SIZE
      [("Requests-Remaining", "0"), ("Requests-Limit", "10"),
       ("Requests-Reset", "7")]).1 = (LimitsStatus.ALL_GREEN, 0) ∧
    (Limiter.notify ⟨[]⟩ Endpoint.GET_SIZE
      [("Requests-Remaining", "0"), ("Requests-Limit", "10"),
       ("Requests-Reset", "7")]).1 ≠ (LimitsStatus.LOW_RESOURCE, 7) := by decide

/-- Claim C2, as amended.  For headers carrying no cooldown signal and all
three quota signals with integer values, the state machine returns
LOW_RESOURCE with wait `reset` exactly when `remaining = 1`, and ALL_GREEN
with wait 0 for every other value of `remaining` (including 0). -/
theorem c2_low_resource_iff_remaining_eq_one (lim : Limiter) (ep : Endpoint)
    (m : Headers) (rv lv tv : String) (r l t : Int)
    (hc : headersGet m "Cooldown-Reset" = none)
    (h1 : headersGet m "Requests-Remaining" = some rv) (p1 : pyInt rv = some r)
    (h2 : headersGet m "Requests-Limit" = some lv) (p2 : pyInt lv = some l)
    (h3 : headersGet m "Requests-Reset" = some tv) (p3 : pyInt tv = some t) :
    (Limiter.notify lim ep m).1 =
      if r = 1 then (LimitsStatus.LOW_RESOURCE, t)
      else (LimitsStatus.ALL_GREEN, 0) := by
  simp only [Limiter.notify, Limits.from_json, hc, h1, h2, h3, p1, p2, p3]
  simp only [Limits.status, Active.is_low]
  by_cases hr : r = 1 <;> simp [hr]

/-- Claim C2, witness: quota headers with `remaining = 1` are classified
LOW_RESOURCE with wait equal to the reset value 7. -/
theorem c2_low_resource_iff_remaining_eq_one_witness :
    (Limiter.notify ⟨[]⟩ Endpoint.GET_PIXELS
      [("Requests-Remaining", "1"), ("Requests-Limit", "10"),
       ("Requests-Reset", "7")]).1 = (LimitsStatus.LOW_RESOURCE, 7) :=
  (c2_low_resource_iff_remaining_eq_one ⟨[]⟩ Endpoint.GET_PIXELS
    [("Requests-Remaining", "1"), ("Requests-Limit", "10"),
     ("Requests-Reset", "7")]
    "1" "10" "7" 1 10 7 (by decide) (by decide) (by decide) (by decide)
    (by decide) (by decide) (by decide)).trans (by decide)

/-- Claim C3.  Classification of one response by the pipeline: a status code
`≥ 500` yields the fatal error (independently of the body decoder and of the
rate-limit status for that response), a code in 400–499 yields the protocol
error carrying the status code and body text, and any other code yields the
decoded body.  Universally quantified over the decoder, the limiter state
and the response (headers included), so it covers in particular a 503 with
ALL_GREEN metadata. -/
theorem c3_status_classification {T : Type} (decode : Resp → T) (lim : Limiter)
    (ep : Endpoint) (r : Resp) (rest : List Resp) :
    (clientRequest decode lim ep (r :: rest)).result =
      (if 500 ≤ r.status then RequestResult.fatalGatewayError
       else if 400 ≤ r.status ∧ r.status < 500 then
         RequestResult.gatewayError r.status r.text
       else RequestResult.ok (decode r)) := by
  by_cases h5 : 500 ≤ r.status <;> by_cases h4 : 400 ≤ r.status ∧ r.status < 500 <;>
    simp [clientRequest, h5, h4]

/-- Claim C4.  Decoding a byte buffer strictly shorter than
`3 * width * height` fails (the chunk iterator is exhausted before the
coordinate loop finishes); no truncated or padded canvas is produced. -/
theorem c4_short_buffer_decode_fails (size : CanvasSize) (stream : List Nat)
    (h : stream.length < 3 * size.width * size.height) :
    Canvas.from_bytes size stream = none := by
  have hlt : (chunks_of stream).length
      < (productRange size.height size.width).length := by
    rw [chunks_of_length, productRange_length]
    rw [Nat.div_lt_iff_lt_mul (by omega)]
    calc stream.length < 3 * size.width * size.height := h
      _ = size.height * size.width * 3 := by ring
  unfold Canvas.from_bytes
  rw [fillCanvas_none _ _ hlt]
  rfl

/-- Claim C4, witness: a 2×2 canvas cannot be decoded from 11 bytes. -/
theorem c4_short_buffer_decode_fails_witness :
    ([255, 0, 0, 0, 255, 0, 0, 0, 255, 255, 255] : List Nat).length
      < 3 * (2 : Nat) * (2 : Nat) ∧
    Canvas.from_bytes ⟨2, 2⟩ [255, 0, 0, 0, 255, 0, 0, 0, 255, 255, 255] = none :=
  ⟨by decide,
   c4_short_buffer_decode_fails ⟨2, 2⟩
     [255, 0, 0, 0, 255, 0, 0, 0, 255, 255, 255] (by decide)⟩

/-- Claim C5.  The claim states that `"12345"`, `"#zzzzzz"` and `"1234567"`
are all rejected by hex decoding.  The first two are, but `"1234567"` is
accepted: the pattern `"#?" + "([A-Za-z0-9]{2})" * 3` is used with
`re.match`, which does not anchor at the end of the string, so the trailing
`"7"` is silently dropped and `RGB(0x12, 0x34, 0x56)` is returned — the
truncation the specification explicitly forbids. -/
theorem c5_trailing_garbage_accepted :
    RGB.from_hex_string "1234567" = some ⟨18, 52, 86⟩ ∧
    RGB.from_hex_string "12345" = none ∧
    RGB.from_hex_string "#zzzzzz" = none := by decide

/-- Claim C6.  Decoding a buffer of exactly `3 * width * height` bytes
succeeds, and the pixel at `(x, y)` is the RGB triple formed by bytes
`3*(y*width+x)`, `3*(y*width+x)+1`, `3*(y*width+x)+2` — row-major,
x-fastest order. -/
theorem c6_canvas_row_major (size : CanvasSize) (stream : List Nat) (x y : Nat)
    (hlen : stream.length = 3 * size.width * size.height)
    (hx : x < size.width) (hy : y < size.height) :
    (Canvas.from_bytes size stream).bind (fun cv => cv.getIndex x y) =
      some ⟨(stream.getD (3 * (y * size.width + x)) 0 : Int),
            (stream.getD (3 * (y * size.width + x) + 1) 0 : Int),
            (stream.getD (3 * (y * size.width + x) + 2) 0 : Int)⟩ := by
  have hchunks : (chunks_of stream).length = size.width * size.height := by
    rw [chunks_of_length, hlen, show 3 * size.width * size.height
      = size.width * size.height * 3 from by ring, Nat.mul_div_cancel _ (by omega)]
  have hcoords : (productRange size.height size.width).length
      ≤ (chunks_of stream).length := by
    rw [productRange_length, hchunks, Nat.mul_comm]
  rw [Canvas.from_bytes, fillCanvas_eq _ _ hcoords]
  simp only [Option.map_some', Option.some_bind]
  unfold Canvas.getIndex
  simp only []
  rw [productRange, List.range_eq_range']
  have hidx : y * size.width + x < size.width * size.height := by
    have h1 : y * size.width + x < (y + 1) * size.width := by
      rw [Nat.add_mul]
      omega
    have h2 : (y + 1) * size.width ≤ size.height * size.width :=
      Nat.mul_le_mul_right _ (by omega)
    rw [Nat.mul_comm size.width size.height]
    omega
  rw [find_grid size.height 0 size.width x y (chunks_of stream) hx (by omega)
    (by omega) (by rw [hchunks, Nat.mul_comm])]
  rw [Nat.sub_zero]
  rw [chunks_of_getD stream (y * size.width + x)
    (by rw [← chunks_of_length, hchunks]; exact hidx)]
  simp [rgbOfChunk]

/-- Claim C6, witness: the specification's 2×2 example
`FF0000 00FF00 0000FF FFFFFF` decodes to (0,0)=red, (1,0)=green,
(0,1)=blue, (1,1)=white. -/
theorem c6_canvas_row_major_witness :
    (Canvas.from_bytes ⟨2, 2⟩
        [255, 0, 0, 0, 255, 0, 0, 0, 255, 255, 255, 255]).bind
      (fun cv => cv.getIndex 0 0) = some ⟨255, 0, 0⟩ ∧
    (Canvas.from_bytes ⟨2, 2⟩
        [255, 0, 0, 0, 255, 0, 0, 0, 255, 255, 255, 255]).bind
      (fun cv => cv.getIndex 1 0) = some ⟨0, 255, 0⟩ ∧
    (Canvas.from_bytes ⟨2, 2⟩
        [255, 0, 0, 0, 255, 0, 0, 0, 255, 255, 255, 255]).bind
      (fun cv => cv.getIndex 0 1) = some ⟨0, 0, 255⟩ ∧
    (Canvas.from_bytes ⟨2, 2⟩
        [255, 0, 0, 0, 255, 0, 0, 0, 255, 255, 255, 255]).bind
      (fun cv => cv.getIndex 1 1) = some ⟨255, 255, 255⟩ :=
  ⟨(c6_canvas_row_major ⟨2, 2⟩ [255, 0, 0, 0, 255, 0, 0, 0, 255, 255, 255, 255]
      0 0 (by decide) (by decide) (by decide)).trans (by decide),
   (c6_canvas_row_major ⟨2, 2⟩ [255, 0, 0, 0, 255, 0, 0, 0, 255, 255, 255, 255]
      1 0 (by decide) (by decide) (by decide)).trans (by decide),
   (c6_canvas_row_major ⟨2, 2⟩ [255, 0, 0, 0, 255, 0, 0, 0, 255, 255, 255, 255]
      0 1 (by decide) (by decide) (by decide)).trans (by decide),
   (c6_canvas_row_major ⟨2, 2⟩ [255, 0, 0, 0, 255, 0, 0, 0, 255, 255, 255, 255]
      1 1 (by decide) (by decide) (by decide)).trans (by decide)⟩

/-- Claim C7.  For every color whose channels all lie in 0–255, serializing
with `as_hex_string` and decoding with `from_hex_string` restores the color,
and hence re-serializing restores the hex string. -/
theorem c7_hex_round_trip (c : RGB) (hr0 : 0 ≤ c.r) (hr1 : c.r ≤ 255)
    (hg0 : 0 ≤ c.g) (hg1 : c.g ≤ 255) (hb0 : 0 ≤ c.b) (hb1 : c.b ≤ 255) :
    RGB.from_hex_string c.as_hex_string = some c ∧
    (RGB.from_hex_string c.as_hex_string).map RGB.as_hex_string
      = some c.as_hex_string := by
  have hrm : ((c.r.toNat : Nat) : Int) = c.r := Int.toNat_of_nonneg hr0
  have hgm : ((c.g.toNat : Nat) : Int) = c.g := Int.toNat_of_nonneg hg0
  have hbm : ((c.b.toNat : Nat) : Int) = c.b := Int.toNat_of_nonneg hb0
  obtain ⟨a1, b1, e1, al1, bl1, hh1, p1⟩ := format02x_pair (m := c.r.toNat) (by omega)
  obtain ⟨a2, b2, e2, al2, bl2, hh2, p2⟩ := format02x_pair (m := c.g.toNat) (by omega)
  obtain ⟨a3, b3, e3, al3, bl3, hh3, p3⟩ := format02x_pair (m := c.b.toNat) (by omega)
  rw [hrm] at e1
  rw [hgm] at e2
  rw [hbm] at e3
  have hdata : (RGB.as_hex_string c).data = [a1, b1, a2, b2, a3, b3] := by
    simp [RGB.as_hex_string, e1, e2, e3]
  have hmain : RGB.from_hex_string c.as_hex_string = some c := by
    unfold RGB.from_hex_string
    rw [hdata]
    simp only [List.head?, Option.some_beq_some, hh1, Bool.false_eq_true, if_false,
      List.tail_cons, al1, bl1, al2, bl2, al3, bl3, Bool.and_self, if_true]
    simp only [RGB.make, fromHexConv, p1, p2, p3, Option.map_some, hrm, hgm, hbm]
    simp [hrm, hgm, hbm]
  exact ⟨hmain, by rw [hmain]; rfl⟩

/-- Claim C7, witness: the round trip at the color `abcdef`
(171, 205, 239). -/
theorem c7_hex_round_trip_witness :
    RGB.from_hex_string (RGB.as_hex_string ⟨171, 205, 239⟩)
      = some ⟨171, 205, 239⟩ ∧
    (RGB.from_hex_string (RGB.as_hex_string ⟨171, 205, 239⟩)).map
      RGB.as_hex_string = some (RGB.as_hex_string ⟨171, 205, 239⟩) :=
  c7_hex_round_trip ⟨171, 205, 239⟩ (by decide) (by decide) (by decide)
    (by decide) (by decide) (by decide)

/-- Claim C8, counterexample.  The claim states that RGB construction from
three integer channels rejects channels outside 0–255.  It does not: the
`_from_hex` converter passes integers through without any range check, so
`RGB(256, 0, 0)` is accepted with a channel that does not fit in one
byte. -/
theorem c8_out_of_range_channel_accepted :
    RGB.make (HexArg.int 256) (HexArg.int 0) (HexArg.int 0) = some ⟨256, 0, 0⟩ ∧
    ¬ ((256 : Int) ≤ 255) := by decide

/-- Claim C8, as amended.  Only decoding through `from_hex_string`
establishes the invariant: every color it returns has all three channels in
0–255, because each channel is parsed from exactly two hex digits.  Direct
construction from integers (or from longer hex strings) performs no range
check. -/
theorem c8_from_hex_channels_in_byte_range {s : String} {c : RGB}
    (h : RGB.from_hex_string s = some c) :
    (0 ≤ c.r ∧ c.r ≤ 255) ∧ (0 ≤ c.g ∧ c.g ≤ 255) ∧ (0 ≤ c.b ∧ c.b ≤ 255) := by
  unfold RGB.from_hex_string at h
  split at h
  · rename_i a1 a2 a3 a4 a5 a6 tl heq
    split at h
    · simp only [RGB.make, fromHexConv] at h
      cases h1 : parseHexNat [a1, a2] with
      | none => rw [h1] at h; simp at h
      | some n1 =>
        cases h2 : parseHexNat [a3, a4] with
        | none => rw [h1, h2] at h; simp at h
        | some n2 =>
          cases h3 : parseHexNat [a5, a6] with
          | none => rw [h1, h2, h3] at h; simp at h
          | some n3 =>
            simp only [h1, h2, h3, Option.bind, Option.map_some,
              Option.some.injEq] at h
            have b1 := parseHexNat_pair_le h1
            have b2 := parseHexNat_pair_le h2
            have b3 := parseHexNat_pair_le h3
            cases h
            simp
            omega
    · exact absurd h (by simp)
  · exact absurd h (by simp)

/-- Claim C8, witness: decoding `"ffffff"` yields channels within 0–255. -/
theorem c8_from_hex_channels_in_byte_range_witness :
    (0 ≤ (255 : Int) ∧ (255 : Int) ≤ 255) ∧
    (0 ≤ (255 : Int) ∧ (255 : Int) ≤ 255) ∧
    (0 ≤ (255 : Int) ∧ (255 : Int) ≤ 255) :=
  c8_from_hex_channels_in_byte_range
    (s := "ffffff") (c := ⟨255, 255, 255⟩) (by decide)

/-- Claim C9.  Headers carrying neither `Cooldown-Reset` nor the full quota
marker set make `Limits.from_json` raise, `Limiter.notify` catches the error
and returns `(ALL_GREEN, 0)` with the stored limiter state unchanged, so
absent rate-limit metadata never blocks a request. -/
theorem c9_missing_headers_all_green (lim : Limiter) (ep : Endpoint)
    (m : Headers)
    (hc : headersGet m "Cooldown-Reset" = none)
    (hq : headersGet m "Requests-Remaining" = none ∨
      headersGet m "Requests-Limit" = none ∨
      headersGet m "Requests-Reset" = none) :
    Limiter.notify lim ep m = ((LimitsStatus.ALL_GREEN, 0), lim) := by
  have hj : Limits.from_json ep m = none := by
    rcases hq with h | h | h <;>
      cases h1 : headersGet m "Requests-Remaining" <;>
      cases h2 : headersGet m "Requests-Limit" <;>
      cases h3 : headersGet m "Requests-Reset" <;>
      simp_all [Limits.from_json, hc]
  simp [Limiter.notify, hj]

/-- Claim C9, witness: an empty header mapping yields ALL_GREEN, wait 0,
limiter unchanged. -/
theorem c9_missing_headers_all_green_witness :
    Limiter.notify ⟨[]⟩ Endpoint.GET_SIZE [] = ((LimitsStatus.ALL_GREEN, 0), ⟨[]⟩) :=
  c9_missing_headers_all_green ⟨[]⟩ Endpoint.GET_SIZE [] (by decide)
    (Or.inl (by decide))

/-- Claim C10.  A recognized rate-limit header whose value does not parse as
an integer (`int` raises `ValueError` inside the attrs converter) is caught
by `Limiter.notify`, which returns `(ALL_GREEN, 0)` and leaves the stored
state of every endpoint unchanged; no exception escapes (the embedded
`notify` is a total function returning normally). -/
theorem c10_unparsable_header_all_green (lim : Limiter) (ep : Endpoint)
    (m : Headers)
    (h : (∃ v, headersGet m "Cooldown-Reset" = some v ∧ pyInt v = none) ∨
      (headersGet m "Cooldown-Reset" = none ∧
        ∃ rv lv tv, headersGet m "Requests-Remaining" = some rv ∧
          headersGet m "Requests-Limit" = some lv ∧
          headersGet m "Requests-Reset" = some tv ∧
          (pyInt rv = none ∨ pyInt lv = none ∨ pyInt tv = none))) :
    Limiter.notify lim ep m = ((LimitsStatus.ALL_GREEN, 0), lim) := by
  have hj : Limits.from_json ep m = none := by
    rcases h with ⟨v, hv, hp⟩ | ⟨hc, rv, lv, tv, h1, h2, h3, hp⟩
    · simp [Limits.from_json, hv, hp]
    · rcases hp with h | h | h <;>
        cases hr : pyInt rv <;> cases hl : pyInt lv <;> cases ht : pyInt tv <;>
        simp_all [Limits.from_json, hc, h1, h2, h3]
  simp [Limiter.notify, hj]

/-- Claim C10, witness: `Cooldown-Reset: soon` on a limiter that already
stores state for the endpoint returns ALL_GREEN, wait 0, and leaves the
stored state intact. -/
theorem c10_unparsable_header_all_green_witness :
    Limiter.notify
        ⟨[(Endpoint.GET_SIZE,
           ⟨Endpoint.GET_SIZE, CurrentLimits.inactive ⟨3⟩⟩)]⟩
        Endpoint.GET_SIZE [("Cooldown-Reset", "soon")]
      = ((LimitsStatus.ALL_GREEN, 0),
         ⟨[(Endpoint.GET_SIZE,
            ⟨Endpoint.GET_SIZE, CurrentLimits.inactive ⟨3⟩⟩)]⟩) :=
  c10_unparsable_header_all_green
    ⟨[(Endpoint.GET_SIZE, ⟨Endpoint.GET_SIZE, CurrentLimits.inactive ⟨3⟩⟩)]⟩
    Endpoint.GET_SIZE [("Cooldown-Reset", "soon")]
    (Or.inl ⟨"soon", by decide, by decide⟩)
